import Mathlib

/-!
Shallow embedding of `src/filetransferinstance.cpp` (qTox file-transfer
widget controller).

Modelling conventions:
* `QString` values are Lean `String`s; `QImage` data is represented by the
  Qt resource path / raw data string it was loaded from, and an absent
  preview (`QImage()` default constructed) is `Option.none`.
* `QDateTime` timestamps are integer seconds (`lastUpdate.secsTo(newtime)`
  becomes integer subtraction), machine integers (`int`, `qint64`, `long`)
  are unbounded `Int` — no claim exercises overflow; the one
  signed-to-`unsigned long long` conversion at the `getHumanReadableSize`
  call sites is modelled exactly as reduction modulo 2^64 (`toULL`).
* The `double` arithmetic in `getHumanReadableSize` (`log`, `pow`,
  two-decimal `'f'` formatting) is idealized as exact real/rational
  arithmetic: `(int)(log size / log 1024)` is `Nat.log 1024 size`, and the
  two-decimal rendering rounds the exact scaled value half-up at the second
  decimal.  All integer divisions in the handlers use `Int.tdiv`
  (truncation toward zero), the semantics of C++ `/`.
* Side effects visible outside the record (calls into `Core`, `qWarning`
  logging, the `QMessageBox` popup, the `stateUpdated()` Qt signal) are
  collected in an ordered `List Event` returned next to the updated record.
* Qt signal connectivity: `onFileTransferCancelled` / `onFileTransferFinished`
  run `disconnect(Core::getInstance(),0,this,0)`, after which Core's signals
  no longer reach this widget's slots.  The field `connected` models that
  connection, and `deliver` runs a slot only while `connected` is true.
-/

inductive FileDirection
  | SENDING
  | RECEIVING
deriving DecidableEq

/-- The five values of the C++ `TransfState` enum. -/
inductive TransfState
  | tsPending
  | tsProcessing
  | tsPaused
  | tsCanceled
  | tsFinished
deriving DecidableEq

open TransfState FileDirection

/-- The fields of `ToxFile` that the handlers in this file consult. -/
structure ToxFile where
  fileNum : Int
  friendId : Int
  direction : FileDirection
  filePath : String
deriving DecidableEq

/-- Externally visible side effects of one widget call, in program order. -/
inductive Event
  | stateUpdated
  | warningNegativeSpeed
  | warningNotWritable
  | coreCancelFileSend (friendId fileNum : Int)
  | coreRejectFileRecvRequest (friendId fileNum : Int)
  | coreAcceptFileRecvRequest (friendId fileNum : Int) (path : String)
  | corePauseResumeFileRecv (friendId fileNum : Int)
  | corePauseResumeFileSend (friendId fileNum : Int)
deriving DecidableEq

/-- The mutable and identity fields of one `FileTransferInstance`. -/
structure FileTransferInstance where
  id : Nat
  fileNum : Int
  friendId : Int
  direction : FileDirection
  state : TransfState
  remotePaused : Bool
  filename : String
  savePath : String
  size : String
  speed : String
  eta : String
  lastUpdate : Int
  lastBytesSent : Int
  pic : Option String
  connected : Bool
deriving DecidableEq

/-- C++ conversion of a signed 64-bit value to `unsigned long long`
(reduction modulo 2^64); `Int.emod` already yields the non-negative
representative. -/
def toULL (i : Int) : Nat := (i % (2 ^ 64)).toNat

/-- The suffix table `{"B","kiB","MiB","GiB","TiB"}`. -/
def sizeSuffixes : List String := ["B", "kiB", "MiB", "GiB", "TiB"]

/-- `exp` as computed at line 54-56:
`0` for size 0, otherwise `min((int)(log(size)/log(1024)), 4)`,
with the double logarithms idealized as exact (`Nat.log 1024`). -/
def sizeExp (size : Nat) : Nat :=
  if size = 0 then 0 else min (Nat.log 1024 size) 4

/-- The scaled value `size / pow(1024, exp)` in hundredths, rounded half-up
at the second decimal (idealizing the `'f',2` double formatting). -/
def centiScaled (size : Nat) : Nat :=
  (200 * size + 1024 ^ sizeExp size) / (2 * 1024 ^ sizeExp size)

/-- Render a number of hundredths as a fixed two-decimal numeral. -/
def formatFixed2 (centi : Nat) : String :=
  toString (centi / 100) ++ "." ++
    (if centi % 100 < 10 then "0" ++ toString (centi % 100) else toString (centi % 100))

/-- `FileTransferInstance::getHumanReadableSize` (lines 51-58). -/
def getHumanReadableSize (size : Nat) : String :=
  formatFixed2 (centiScaled size) ++ sizeSuffixes.getD (sizeExp size) ""

/-- `QTime(0,0).addSecs(etaSecs).toString("mm:ss")` (lines 82-84):
seconds-of-day arithmetic wraps modulo 24h, and the pattern shows only the
minute and second components, each zero-padded to two digits. -/
def formatMMSS (secs : Int) : String :=
  let total := (secs % 86400).toNat
  let mm := (total / 60) % 60
  let ss := total % 60
  (if mm < 10 then "0" ++ toString mm else toString mm) ++ ":" ++
    (if ss < 10 then "0" ++ toString ss else toString ss)

/-- The throughput computation of `onFileTransferInfo` lines 70-76:
delta of byte counters, clamped at zero, then C++ integer division by the
elapsed seconds. -/
def rawSpeed (lastBytesSent BytesSent timediff : Int) : Int :=
  let diff := BytesSent - lastBytesSent
  let diff := if diff < 0 then 0 else diff
  diff.tdiv timediff

/-- `FileTransferInstance::onFileTransferInfo` (lines 60-88); `now` is the
`QDateTime::currentDateTime()` sample, so `timediff = now - lastUpdate`. -/
def onFileTransferInfo (w : FileTransferInstance)
    (FriendId FileNum : Int) (Filesize BytesSent : Int)
    (Direction : FileDirection) (now : Int) :
    FileTransferInstance × List Event :=
  if FileNum ≠ w.fileNum ∨ FriendId ≠ w.friendId ∨ Direction ≠ w.direction then
    (w, [])
  else
    let timediff := now - w.lastUpdate
    if timediff ≤ 0 then (w, [])
    else
      let warns : List Event :=
        if BytesSent - w.lastBytesSent < 0 then [Event.warningNegativeSpeed] else []
      let rawspeed := rawSpeed w.lastBytesSent BytesSent timediff
      let w1 := { w with
        speed := getHumanReadableSize (toULL rawspeed) ++ "/s",
        size := getHumanReadableSize (toULL Filesize) }
      if rawspeed = 0 then (w1, warns)
      else
        let etaSecs := (Filesize - BytesSent).tdiv rawspeed
        ({ w1 with
            eta := formatMMSS etaSecs,
            lastUpdate := now,
            lastBytesSent := BytesSent },
          warns ++ [Event.stateUpdated])

/-- `FileTransferInstance::onFileTransferCancelled` (lines 90-98). -/
def onFileTransferCancelled (w : FileTransferInstance)
    (FriendId FileNum : Int) (Direction : FileDirection) :
    FileTransferInstance × List Event :=
  if FileNum ≠ w.fileNum ∨ FriendId ≠ w.friendId ∨ Direction ≠ w.direction then
    (w, [])
  else
    ({ w with connected := false, state := tsCanceled }, [Event.stateUpdated])

/-- `FileTransferInstance::onFileTransferFinished` (lines 100-123).
`previewResult` is the outcome of the preview-file open / ≤25MiB size check /
image decode chain: `some data` when a preview was decoded, `none` on any
failure. -/
def onFileTransferFinished (w : FileTransferInstance)
    (File : ToxFile) (previewResult : Option String) :
    FileTransferInstance × List Event :=
  if File.fileNum ≠ w.fileNum ∨ File.friendId ≠ w.friendId ∨ File.direction ≠ w.direction then
    (w, [])
  else
    let w1 := { w with connected := false }
    let w2 :=
      if File.direction = RECEIVING then
        match previewResult with
        | some data => { w1 with pic := some data }
        | none => w1
      else w1
    ({ w2 with state := tsFinished }, [Event.stateUpdated])

/-- `FileTransferInstance::onFileTransferAccepted` (lines 125-134). -/
def onFileTransferAccepted (w : FileTransferInstance) (File : ToxFile) :
    FileTransferInstance × List Event :=
  if File.fileNum ≠ w.fileNum ∨ File.friendId ≠ w.friendId ∨ File.direction ≠ w.direction then
    (w, [])
  else
    ({ w with remotePaused := false, state := tsProcessing }, [Event.stateUpdated])

/-- `FileTransferInstance::onFileTransferRemotePausedUnpaused` (lines 136-144). -/
def onFileTransferRemotePausedUnpaused (w : FileTransferInstance)
    (File : ToxFile) (paused : Bool) : FileTransferInstance × List Event :=
  if File.fileNum ≠ w.fileNum ∨ File.friendId ≠ w.friendId ∨ File.direction ≠ w.direction then
    (w, [])
  else
    ({ w with remotePaused := paused }, [Event.stateUpdated])

/-- `FileTransferInstance::onFileTransferPaused` (lines 146-154). -/
def onFileTransferPaused (w : FileTransferInstance)
    (FriendId FileNum : Int) (Direction : FileDirection) :
    FileTransferInstance × List Event :=
  if FileNum ≠ w.fileNum ∨ FriendId ≠ w.friendId ∨ Direction ≠ w.direction then
    (w, [])
  else
    ({ w with state := tsPaused }, [Event.stateUpdated])

/-- `FileTransferInstance::cancelTransfer` (lines 156-161).  Note: unlike the
cancelled/finished slots it does not disconnect from Core. -/
def cancelTransfer (w : FileTransferInstance) : FileTransferInstance × List Event :=
  ({ w with state := tsCanceled },
    [Event.coreCancelFileSend w.friendId w.fileNum, Event.stateUpdated])

/-- `FileTransferInstance::rejectRecvRequest` (lines 163-169): forwards the
rejection to Core, replays the cancelled slot on its own identity (which
always matches, so it disconnects and emits), then sets the state and emits
again. -/
def rejectRecvRequest (w : FileTransferInstance) : FileTransferInstance × List Event :=
  let r := onFileTransferCancelled w w.friendId w.fileNum w.direction
  ({ r.1 with state := tsCanceled },
    Event.coreRejectFileRecvRequest w.friendId w.fileNum :: r.2 ++ [Event.stateUpdated])

/-- `FileTransferInstance::acceptRecvRequest` (lines 186-212).  The blocking
`QFileDialog::getSaveFileName` loop is driven by the list of successive user
responses (`none` = dialog cancelled / empty path) and `isFileWritable`
(lines 175-184, the probe-write check) is abstracted as the `writable`
predicate on paths.  An exhausted response list leaves the widget blocked in
the dialog with nothing mutated. -/
def acceptRecvRequest (writable : String → Bool) :
    List (Option String) → FileTransferInstance → FileTransferInstance × List Event
  | [], w => (w, [])
  | none :: _, w => (w, [])
  | some path :: rest, w =>
    if writable path then
      ({ w with savePath := path, state := tsProcessing },
        [Event.coreAcceptFileRecvRequest w.friendId w.fileNum path, Event.stateUpdated])
    else
      let r := acceptRecvRequest writable rest w
      (r.1, Event.warningNotWritable :: r.2)

/-- `FileTransferInstance::pauseResumeRecv` (lines 214-228). -/
def pauseResumeRecv (w : FileTransferInstance) : FileTransferInstance × List Event :=
  if ¬(w.state = tsProcessing ∨ w.state = tsPaused) then (w, [])
  else if w.remotePaused then (w, [])
  else (w, [Event.corePauseResumeFileRecv w.friendId w.fileNum, Event.stateUpdated])

/-- `FileTransferInstance::pauseResumeSend` (lines 230-244). -/
def pauseResumeSend (w : FileTransferInstance) : FileTransferInstance × List Event :=
  if ¬(w.state = tsProcessing ∨ w.state = tsPaused) then (w, [])
  else if w.remotePaused then (w, [])
  else (w, [Event.corePauseResumeFileSend w.friendId w.fileNum, Event.stateUpdated])

/-! ### Rendering (`getHtmlImage` and the form builders, lines 246-380) -/

/-- Resource path of the stop/cancel button image. -/
def stopFileButton : String := ":/ui/fileTransferInstance/stopFileButton.png"

/-- Resource path of the pause button image. -/
def pauseFileButton : String := ":/ui/fileTransferInstance/pauseFileButton.png"

/-- Resource path of the resume button image. -/
def resumeFileButton : String := ":/ui/fileTransferInstance/resumeFileButton.png"

/-- Resource path of the greyed/disabled pause button image. -/
def pauseGreyFileButton : String := ":/ui/fileTransferInstance/pauseGreyFileButton.png"

/-- Resource path of the accept button image. -/
def acceptFileButton : String := ":/ui/fileTransferInstance/acceptFileButton.png"

/-- `FileTransferInstance::QImage2base64` (lines 246-253): PNG-encodes and
base64-encodes an image.  Both encodings are injective and their exact
output is irrelevant to the rendering claims, so the composite is idealized
as the identity on the image-data string. -/
def QImage2base64 (img : String) : String := img

/-- `FileTransferInstance::insertMiniature` (lines 334-346). -/
def insertMiniature (w : FileTransferInstance) (type : String) : String :=
  match w.pic with
  | none => ""
  | some pic =>
    let widgetId := toString w.id
    "<td><div class=" ++ type ++ ">\n" ++
      "<img src=\"data:mini." ++ widgetId ++ "/png;base64," ++ QImage2base64 pic ++ "\">" ++
      "</div></td>\n"

/-- `FileTransferInstance::wrapIntoForm` (lines 361-380). -/
def wrapIntoForm (w : FileTransferInstance)
    (content type imgAstr imgBstr : String) : String :=
  "<table widht=100% cellspacing=\"0\">\n" ++
    "<tr valign=middle>\n" ++
    insertMiniature w type ++
    "<td width=100%>\n" ++
    "<div class=" ++ type ++ ">" ++ content ++ "</div>\n" ++
    "</td>\n" ++
    "<td>\n" ++
    "<div class=button>" ++ imgAstr ++ "<br>" ++ imgBstr ++ "</div>\n" ++
    "</td>\n" ++
    "</tr>\n" ++
    "</table>\n"

/-- `FileTransferInstance::drawButtonlessForm` (lines 315-332). -/
def drawButtonlessForm (w : FileTransferInstance) (type : String) : String :=
  let imgAStr :=
    if type = "red" then
      "<img src=\"data:placeholder/png;base64," ++
        QImage2base64 ":/ui/fileTransferInstance/emptyLRedFileButton.png" ++ "\">"
    else
      "<img src=\"data:placeholder/png;base64," ++
        QImage2base64 ":/ui/fileTransferInstance/emptyLGreenFileButton.png" ++ "\">"
  let imgBStr :=
    if type = "red" then
      "<img src=\"data:placeholder/png;base64," ++
        QImage2base64 ":/ui/fileTransferInstance/emptyRRedFileButton.png" ++ "\">"
    else
      "<img src=\"data:placeholder/png;base64," ++
        QImage2base64 ":/ui/fileTransferInstance/emptyRGreenFileButton.png" ++ "\">"
  let content := "<p>" ++ w.filename ++ "</p><p>" ++ w.size ++ "</p>"
  wrapIntoForm w content type imgAStr imgBStr

/-- `FileTransferInstance::draw2ButtonsForm` (lines 348-359): `imgA` is the
left (btnA) control image, `imgB` the right (btnB) one. -/
def draw2ButtonsForm (w : FileTransferInstance) (type imgA imgB : String) : String :=
  let widgetId := toString w.id
  let imgAstr := "<img src=\"data:ftrans." ++ widgetId ++ ".btnA/png;base64," ++
    QImage2base64 imgA ++ "\">"
  let imgBstr := "<img src=\"data:ftrans." ++ widgetId ++ ".btnB/png;base64," ++
    QImage2base64 imgB ++ "\">"
  let content := "<p>" ++ w.filename ++ "</p>" ++
    "<p>" ++ getHumanReadableSize (toULL w.lastBytesSent) ++ " / " ++ w.size ++
    "&nbsp;(" ++ w.speed ++ " ETA: " ++ w.eta ++ ")</p>\n"
  wrapIntoForm w content type imgAstr imgBstr

/-- `FileTransferInstance::getHtmlImage` (lines 255-289). -/
def getHtmlImage (w : FileTransferInstance) : String :=
  if w.state = tsPending ∨ w.state = tsProcessing ∨ w.state = tsPaused then
    let leftBtnImg := stopFileButton
    let rightBtnImg :=
      if w.state = tsProcessing then pauseFileButton
      else if w.state = tsPaused then resumeFileButton
      else if w.direction = SENDING then pauseGreyFileButton
      else acceptFileButton
    let rightBtnImg := if w.remotePaused then pauseGreyFileButton else rightBtnImg
    draw2ButtonsForm w "silver" leftBtnImg rightBtnImg
  else if w.state = tsCanceled then drawButtonlessForm w "red"
  else if w.state = tsFinished then drawButtonlessForm w "green"
  else ""

/-! ### Notification delivery

Each Core signal this widget subscribes to, with its payload.  `now` on the
progress signal is the wall-clock sample the slot takes on entry, and
`previewResult` on the finished signal is the outcome of the preview decode
chain (both are environment inputs of the slot, not signal parameters). -/

inductive Notif
  | info (FriendId FileNum : Int) (Filesize BytesSent : Int)
      (Direction : FileDirection) (now : Int)
  | cancelled (FriendId FileNum : Int) (Direction : FileDirection)
  | finished (File : ToxFile) (previewResult : Option String)
  | accepted (File : ToxFile)
  | remotePausedUnpaused (File : ToxFile) (paused : Bool)
  | paused (FriendId FileNum : Int) (Direction : FileDirection)
deriving DecidableEq

/-- Whether a notification's (peerId, transferId, direction) triple matches
this record's identity — the common guard of all six slots. -/
def notifMatches (w : FileTransferInstance) : Notif → Bool
  | .info FriendId FileNum _ _ Direction _ =>
    decide (FileNum = w.fileNum ∧ FriendId = w.friendId ∧ Direction = w.direction)
  | .cancelled FriendId FileNum Direction =>
    decide (FileNum = w.fileNum ∧ FriendId = w.friendId ∧ Direction = w.direction)
  | .finished File _ =>
    decide (File.fileNum = w.fileNum ∧ File.friendId = w.friendId ∧ File.direction = w.direction)
  | .accepted File =>
    decide (File.fileNum = w.fileNum ∧ File.friendId = w.friendId ∧ File.direction = w.direction)
  | .remotePausedUnpaused File _ =>
    decide (File.fileNum = w.fileNum ∧ File.friendId = w.friendId ∧ File.direction = w.direction)
  | .paused FriendId FileNum Direction =>
    decide (FileNum = w.fileNum ∧ FriendId = w.friendId ∧ Direction = w.direction)

/-- Delivery of one Core signal: a slot runs only while the Qt connection
made in the constructor is intact (`disconnect(Core::getInstance(),0,this,0)`
in the cancelled/finished slots clears `connected`). -/
def deliver (w : FileTransferInstance) : Notif → FileTransferInstance × List Event
  | n =>
    if w.connected then
      match n with
      | .info FriendId FileNum Filesize BytesSent Direction now =>
        onFileTransferInfo w FriendId FileNum Filesize BytesSent Direction now
      | .cancelled FriendId FileNum Direction =>
        onFileTransferCancelled w FriendId FileNum Direction
      | .finished File previewResult =>
        onFileTransferFinished w File previewResult
      | .accepted File =>
        onFileTransferAccepted w File
      | .remotePausedUnpaused File paused =>
        onFileTransferRemotePausedUnpaused w File paused
      | .paused FriendId FileNum Direction =>
        onFileTransferPaused w FriendId FileNum Direction
    else (w, [])

/-! ### Concrete instances used to instantiate the theorems -/

/-- A freshly constructed receiving-side record (identity (2,1,RECEIVING)). -/
def wEx : FileTransferInstance :=
  { id := 0, fileNum := 1, friendId := 2, direction := RECEIVING,
    state := tsPending, remotePaused := false, filename := "f.txt",
    savePath := "", size := "0.00B", speed := "0B/s", eta := "00:00",
    lastUpdate := 0, lastBytesSent := 0, pic := none, connected := true }

/-- A `ToxFile` whose identity triple matches `wEx`. -/
def fEx : ToxFile :=
  { fileNum := 1, friendId := 2, direction := RECEIVING, filePath := "/tmp/f.txt" }

/-- A `ToxFile` whose transfer id does not match `wEx`. -/
def fExOther : ToxFile :=
  { fileNum := 99, friendId := 2, direction := RECEIVING, filePath := "/tmp/g.txt" }

/-! ### Helper lemmas -/

/-- After `disconnect(Core::getInstance(),0,this,0)` no signal reaches any
slot: delivery to a disconnected widget does nothing. -/
theorem deliver_of_not_connected (w : FileTransferInstance) (n : Notif)
    (h : w.connected = false) : deliver w n = (w, []) := by
  simp [deliver, h]

/-- C4: Identity filter: every notification whose (peerId, transferId, direction)
triple differs from the record's identity leaves the record unchanged and
emits nothing, whatever its payload. -/
theorem c4_identity_filter (w : FileTransferInstance) (n : Notif)
    (h : notifMatches w n = false) : deliver w n = (w, []) := by
  cases hc : w.connected
  · exact deliver_of_not_connected w n hc
  · cases n with
    | info FriendId FileNum Filesize BytesSent Direction now =>
      simp only [notifMatches, decide_eq_false_iff_not] at h
      simp only [deliver, hc, if_true, onFileTransferInfo]
      rw [if_pos (by tauto)]
    | cancelled FriendId FileNum Direction =>
      simp only [notifMatches, decide_eq_false_iff_not] at h
      simp only [deliver, hc, if_true, onFileTransferCancelled]
      rw [if_pos (by tauto)]
    | finished File previewResult =>
      simp only [notifMatches, decide_eq_false_iff_not] at h
      simp only [deliver, hc, if_true, onFileTransferFinished]
      rw [if_pos (by tauto)]
    | accepted File =>
      simp only [notifMatches, decide_eq_false_iff_not] at h
      simp only [deliver, hc, if_true, onFileTransferAccepted]
      rw [if_pos (by tauto)]
    | remotePausedUnpaused File paused =>
      simp only [notifMatches, decide_eq_false_iff_not] at h
      simp only [deliver, hc, if_true, onFileTransferRemotePausedUnpaused]
      rw [if_pos (by tauto)]
    | paused FriendId FileNum Direction =>
      simp only [notifMatches, decide_eq_false_iff_not] at h
      simp only [deliver, hc, if_true, onFileTransferPaused]
      rw [if_pos (by tauto)]

/-- `sizeExp` computes the unique exponent `e ≤ 4` with
`1024 ^ e ≤ size < 1024 ^ (e+1)` when one exists. -/
theorem sizeExp_eq_of (size e : Nat) (he : e ≤ 4)
    (h1 : 1024 ^ e ≤ size) (h2 : size < 1024 ^ (e + 1)) : sizeExp size = e := by
  have h0 : 0 < size := lt_of_lt_of_le (pow_pos (by norm_num) e) h1
  unfold sizeExp
  rw [if_neg h0.ne', Nat.log_eq_of_pow_le_of_lt_pow h1 h2]
  exact min_eq_left he

/-- Unfolding of `getHumanReadableSize` once the exponent is known. -/
theorem getHumanReadableSize_eq_of (size e : Nat) (h : sizeExp size = e) :
    getHumanReadableSize size =
      formatFixed2 ((200 * size + 1024 ^ e) / (2 * 1024 ^ e)) ++
        sizeSuffixes.getD e "" := by
  unfold getHumanReadableSize centiScaled
  rw [h]

/-- C4 witness: a mismatched accepted notification delivered to the concrete
record is a complete no-op. -/
theorem c4_identity_filter_witness :
    deliver wEx (Notif.accepted fExOther) = (wEx, []) :=
  c4_identity_filter wEx (Notif.accepted fExOther) (by decide)

/-- C9: `pauseResumeRecv` / `pauseResumeSend`: a complete no-op unless the state
is PROCESSING or PAUSED with `remotePaused` false; in the enabled case they
forward the toggle request to Core and emit `stateUpdated`, leaving every
record field (in particular `state`) unchanged. -/
theorem c9_pause_toggle (w : FileTransferInstance) :
    ((¬(w.state = tsProcessing ∨ w.state = tsPaused) ∨ w.remotePaused = true) →
      pauseResumeRecv w = (w, []) ∧ pauseResumeSend w = (w, [])) ∧
    ((w.state = tsProcessing ∨ w.state = tsPaused) → w.remotePaused = false →
      pauseResumeRecv w =
        (w, [Event.corePauseResumeFileRecv w.friendId w.fileNum, Event.stateUpdated]) ∧
      pauseResumeSend w =
        (w, [Event.corePauseResumeFileSend w.friendId w.fileNum, Event.stateUpdated])) := by
  constructor
  · rintro (h | h)
    · simp [pauseResumeRecv, pauseResumeSend, h]
    · by_cases hs : w.state = tsProcessing ∨ w.state = tsPaused <;>
        simp [pauseResumeRecv, pauseResumeSend, hs, h]
  · intro hs hrp
    simp [pauseResumeRecv, pauseResumeSend, hs, hrp]

/-- C9 witness: on a PROCESSING record with `remotePaused` false the receive
toggle forwards to Core and emits without touching the record, and on the
PENDING record it is a no-op. -/
theorem c9_pause_toggle_witness :
    (pauseResumeRecv { wEx with state := tsProcessing } =
      ({ wEx with state := tsProcessing },
        [Event.corePauseResumeFileRecv 2 1, Event.stateUpdated])) ∧
    pauseResumeRecv wEx = (wEx, []) := by
  refine ⟨?_, ?_⟩
  · have h := (c9_pause_toggle { wEx with state := tsProcessing }).2
      (Or.inl rfl) rfl
    exact h.1
  · have h := (c9_pause_toggle wEx).1 (Or.inl (by decide))
    exact h.1

/-- C10: a matched accepted notification unconditionally clears `remotePaused`
and sets the state to PROCESSING, from whatever state the record currently
holds (no PENDING precondition), and emits `stateUpdated`. -/
theorem c10_accepted_unconditional (w : FileTransferInstance) (File : ToxFile)
    (hm : File.fileNum = w.fileNum ∧ File.friendId = w.friendId ∧
      File.direction = w.direction) :
    onFileTransferAccepted w File =
      ({ w with remotePaused := false, state := tsProcessing },
        [Event.stateUpdated]) := by
  obtain ⟨h1, h2, h3⟩ := hm
  simp [onFileTransferAccepted, h1, h2, h3]

/-- C10 witness: applied to a CANCELED, remotely paused record — the state
still becomes PROCESSING and `remotePaused` is cleared. -/
theorem c10_accepted_unconditional_witness :
    onFileTransferAccepted { wEx with state := tsCanceled, remotePaused := true } fEx =
      ({ wEx with state := tsProcessing, remotePaused := false },
        [Event.stateUpdated]) := by
  have h := c10_accepted_unconditional
    { wEx with state := tsCanceled, remotePaused := true } fEx (by decide)
  simpa using h

/-- C8: rendering control selection: a PENDING receiving record with the remote
pause flag clear renders the two-button form with the accept image as the
right (btnB) control; whenever `remotePaused` holds in a non-terminal state
the right control is forced to the greyed pause image, overriding the
state-based choice. -/
theorem c8_render_buttons (w : FileTransferInstance) :
    (w.state = tsPending → w.direction = RECEIVING → w.remotePaused = false →
      getHtmlImage w = draw2ButtonsForm w "silver" stopFileButton acceptFileButton) ∧
    (w.remotePaused = true →
      (w.state = tsPending ∨ w.state = tsProcessing ∨ w.state = tsPaused) →
      getHtmlImage w = draw2ButtonsForm w "silver" stopFileButton pauseGreyFileButton) := by
  constructor
  · intro h1 h2 h3
    simp [getHtmlImage, h1, h2, h3]
  · intro hrp hst
    rcases hst with h | h | h <;> simp [getHtmlImage, h, hrp]

/-- C8 witness: the concrete PENDING receiving record renders with the
accept control, and its remotely-paused variant with the greyed pause
control. -/
theorem c8_render_buttons_witness :
    getHtmlImage wEx = draw2ButtonsForm wEx "silver" stopFileButton acceptFileButton ∧
    getHtmlImage { wEx with remotePaused := true } =
      draw2ButtonsForm { wEx with remotePaused := true } "silver"
        stopFileButton pauseGreyFileButton := by
  constructor
  · exact (c8_render_buttons wEx).1 rfl rfl rfl
  · exact (c8_render_buttons { wEx with remotePaused := true }).2 rfl (Or.inl rfl)

/-- C1 counterexample: the local `cancelTransfer()` puts the record in
CANCELED but does not disconnect from Core, so a subsequent identity-matched
accepted notification still mutates the record — its state becomes
PROCESSING. -/
theorem c1_counterexample :
    (cancelTransfer wEx).1.state = tsCanceled ∧
    (cancelTransfer wEx).1.connected = true ∧
    (deliver (cancelTransfer wEx).1 (Notif.accepted fEx)).1.state = tsProcessing := by
  decide

/-- C1 (amended): once a terminal state is entered through a matched
cancelled or finished notification, the widget is disconnected and every
subsequent notification of any kind leaves every field unchanged and emits
nothing; the local `cancelTransfer()` path does not detach, and matched
notifications can still mutate the record afterwards. -/
theorem c1_terminal_detach (w : FileTransferInstance) (n : Notif)
    (hc : w.connected = true)
    (hn : (∃ a b c, n = Notif.cancelled a b c) ∨ ∃ f p, n = Notif.finished f p)
    (hm : notifMatches w n = true) :
    ((deliver w n).1.state = tsCanceled ∨ (deliver w n).1.state = tsFinished) ∧
    ∀ n', deliver (deliver w n).1 n' = ((deliver w n).1, []) := by
  have hdis : (deliver w n).1.connected = false ∧
      ((deliver w n).1.state = tsCanceled ∨ (deliver w n).1.state = tsFinished) := by
    rcases hn with ⟨a, b, c, rfl⟩ | ⟨f, p, rfl⟩
    · simp only [notifMatches, decide_eq_true_eq] at hm
      obtain ⟨h1, h2, h3⟩ := hm
      simp [deliver, hc, onFileTransferCancelled, h1, h2, h3]
    · simp only [notifMatches, decide_eq_true_eq] at hm
      obtain ⟨h1, h2, h3⟩ := hm
      cases p with
      | none =>
        by_cases hd : w.direction = RECEIVING <;>
          simp [deliver, hc, onFileTransferFinished, h1, h2, h3, hd]
      | some data =>
        by_cases hd : w.direction = RECEIVING <;>
          simp [deliver, hc, onFileTransferFinished, h1, h2, h3, hd]
  exact ⟨hdis.2, fun n' => deliver_of_not_connected _ n' hdis.1⟩

/-- C1 witness: a matched cancelled notification leaves the concrete record
terminal, and a later matched accepted notification is a complete no-op. -/
theorem c1_terminal_detach_witness :
    ((deliver wEx (Notif.cancelled 2 1 RECEIVING)).1.state = tsCanceled ∨
      (deliver wEx (Notif.cancelled 2 1 RECEIVING)).1.state = tsFinished) ∧
    deliver (deliver wEx (Notif.cancelled 2 1 RECEIVING)).1 (Notif.accepted fEx) =
      ((deliver wEx (Notif.cancelled 2 1 RECEIVING)).1, []) := by
  have h := c1_terminal_detach wEx (Notif.cancelled 2 1 RECEIVING) rfl
    (Or.inl ⟨2, 1, RECEIVING, rfl⟩) (by decide)
  exact ⟨h.1, h.2 (Notif.accepted fEx)⟩

/-- C2 counterexample: for the matched progress notification at time 5 with
zero computed throughput, the handler updates the size and speed strings but
does not re-anchor the baseline (`lastUpdate` stays 0 instead of becoming 5,
`lastBytesSent` is untouched) and emits no change notification, contrary to
the claim. -/
theorem c2_counterexample :
    (onFileTransferInfo wEx 2 1 100 0 RECEIVING 5).2 = [] ∧
    (onFileTransferInfo wEx 2 1 100 0 RECEIVING 5).1.lastUpdate = 0 ∧
    (onFileTransferInfo wEx 2 1 100 0 RECEIVING 5).1.speed = "0.00B/s" ∧
    (onFileTransferInfo wEx 2 1 100 0 RECEIVING 5).1.size = "100.00B" := by
  have hs : sizeExp 100 = 0 := sizeExp_eq_of 100 0 (by norm_num) (by norm_num) (by norm_num)
  have hgh : getHumanReadableSize 100 = "100.00B" := by
    rw [getHumanReadableSize_eq_of 100 0 hs]; decide
  have hsz : (onFileTransferInfo wEx 2 1 100 0 RECEIVING 5).1.size =
      getHumanReadableSize (toULL 100) := rfl
  have ht : toULL (100 : Int) = 100 := by decide
  refine ⟨by decide, by decide, by decide, ?_⟩
  rw [hsz, ht, hgh]

/-- C2 (amended): with matched identity, positive elapsed time and zero
computed throughput, the handler updates only the size and speed strings;
`eta`, `lastUpdate`, `lastBytesSent` and every other field keep their
values, and no `stateUpdated` signal is emitted (only the negative-delta
warning is logged when the byte counter went backwards). -/
theorem c2_zero_speed (w : FileTransferInstance)
    (FriendId FileNum Filesize BytesSent now : Int) (Direction : FileDirection)
    (hm : FileNum = w.fileNum ∧ FriendId = w.friendId ∧ Direction = w.direction)
    (ht : 0 < now - w.lastUpdate)
    (hz : rawSpeed w.lastBytesSent BytesSent (now - w.lastUpdate) = 0) :
    onFileTransferInfo w FriendId FileNum Filesize BytesSent Direction now =
      ({ w with speed := getHumanReadableSize (toULL 0) ++ "/s",
                size := getHumanReadableSize (toULL Filesize) },
        if BytesSent - w.lastBytesSent < 0 then [Event.warningNegativeSpeed] else []) := by
  obtain ⟨h1, h2, h3⟩ := hm
  subst h1; subst h2; subst h3
  simp [onFileTransferInfo, not_le.2 ht, hz]

/-- C2 witness: the amended zero-throughput behaviour at the concrete
record. -/
theorem c2_zero_speed_witness :
    onFileTransferInfo wEx 2 1 100 0 RECEIVING 5 =
      ({ wEx with speed := getHumanReadableSize (toULL 0) ++ "/s",
                  size := getHumanReadableSize (toULL 100) },
        if (0 : Int) - wEx.lastBytesSent < 0 then [Event.warningNegativeSpeed] else []) :=
  c2_zero_speed wEx 2 1 100 0 5 RECEIVING (by decide) (by decide) (by decide)

/-- C6: an identity-matched progress notification with positive elapsed time
whose byte counter went backwards has its computed throughput clamped to
zero, logs exactly the negative-speed warning, and returns normally with
only the size/speed strings updated — no fatal error path exists. -/
theorem c6_negative_clamped (w : FileTransferInstance)
    (FriendId FileNum Filesize BytesSent now : Int) (Direction : FileDirection)
    (hm : FileNum = w.fileNum ∧ FriendId = w.friendId ∧ Direction = w.direction)
    (ht : 0 < now - w.lastUpdate)
    (hneg : BytesSent < w.lastBytesSent) :
    rawSpeed w.lastBytesSent BytesSent (now - w.lastUpdate) = 0 ∧
    onFileTransferInfo w FriendId FileNum Filesize BytesSent Direction now =
      ({ w with speed := getHumanReadableSize (toULL 0) ++ "/s",
                size := getHumanReadableSize (toULL Filesize) },
        [Event.warningNegativeSpeed]) := by
  have hd : BytesSent - w.lastBytesSent < 0 := sub_neg.2 hneg
  have hz : rawSpeed w.lastBytesSent BytesSent (now - w.lastUpdate) = 0 := by
    unfold rawSpeed
    simp only [if_pos hd]
    exact Int.zero_tdiv _
  refine ⟨hz, ?_⟩
  have h := c2_zero_speed w FriendId FileNum Filesize BytesSent now Direction hm ht hz
  rw [h, if_pos hd]

/-- C6 witness: concrete out-of-order progress data (counter 10 → 3) is
clamped to zero throughput with the warning logged. -/
theorem c6_negative_clamped_witness :
    rawSpeed ({ wEx with lastBytesSent := 10 } : FileTransferInstance).lastBytesSent 3
        (5 - ({ wEx with lastBytesSent := 10 } : FileTransferInstance).lastUpdate) = 0 ∧
    onFileTransferInfo { wEx with lastBytesSent := 10 } 2 1 100 3 RECEIVING 5 =
      ({ { wEx with lastBytesSent := 10 } with
          speed := getHumanReadableSize (toULL 0) ++ "/s",
          size := getHumanReadableSize (toULL 100) },
        [Event.warningNegativeSpeed]) :=
  c6_negative_clamped { wEx with lastBytesSent := 10 } 2 1 100 3 5 RECEIVING
    (by decide) (by decide) (by decide)

/-- C3 counterexample: with byte counters 0 → 3 over 2 elapsed seconds the
handler computes throughput 1 (C++ integer division truncates), not the
exact value 3/2; the speed string accordingly reads "1.00B/s". -/
theorem c3_counterexample :
    rawSpeed 0 3 2 = 1 ∧
    ¬ (((rawSpeed 0 3 2 : Int) : ℚ) = ((3 : ℚ) - 0) / 2) ∧
    (onFileTransferInfo wEx 2 1 100 3 RECEIVING 2).1.speed = "1.00B/s" := by
  have hr : rawSpeed 0 3 2 = 1 := by decide
  refine ⟨hr, ?_, ?_⟩
  · rw [hr]; norm_num
  · have hs : (onFileTransferInfo wEx 2 1 100 3 RECEIVING 2).1.speed =
        getHumanReadableSize (toULL (rawSpeed 0 3 2)) ++ "/s" := rfl
    have h1 : toULL (rawSpeed 0 3 2) = 1 := by decide
    have h2 : getHumanReadableSize 1 = "1.00B" := by
      rw [getHumanReadableSize_eq_of 1 0
        (sizeExp_eq_of 1 0 (by norm_num) (by norm_num) (by norm_num))]
      decide
    rw [hs, h1, h2]
    decide

/-- C3 (amended): for non-negative byte counters `b1 ≤ b2` and elapsed time
`t > 0`, the computed throughput is exactly the integer floor of
`(b2 − b1) / t` — equal to the exact quotient only when `t` divides the
delta. -/
theorem c3_throughput_floor (b1 b2 t : Int)
    (h0 : 0 ≤ b1) (h12 : b1 ≤ b2) (ht : 0 < t) :
    rawSpeed b1 b2 t = ⌊((b2 : ℚ) - (b1 : ℚ)) / (t : ℚ)⌋ := by
  have hd : ¬(b2 - b1 < 0) := not_lt.2 (sub_nonneg.2 h12)
  unfold rawSpeed
  simp only [if_neg hd]
  rw [Int.tdiv_eq_ediv (sub_nonneg.2 h12) ht.le]
  have htn : ((t.toNat : ℤ)) = t := Int.toNat_of_nonneg ht.le
  rw [← htn]
  push_cast
  rw [← Int.cast_sub]
  exact (Rat.floor_intCast_div_natCast (b2 - b1) t.toNat).symm

/-- C3 witness: the amended floor formula at counters 0 → 3 over 2 s. -/
theorem c3_throughput_floor_witness :
    rawSpeed 0 3 2 = ⌊((3 : ℚ) - (0 : ℚ)) / (2 : ℚ)⌋ := by
  have h := c3_throughput_floor 0 3 2 (by norm_num) (by norm_num) (by norm_num)
  simpa using h

/-- Unwritable responses only re-prompt: a prefix of non-writable choices
contributes one warning popup each and leaves record and outcome to the
remaining responses. -/
theorem acceptRecvRequest_badPrefix (writable : String → Bool)
    (rest : List (Option String)) (w : FileTransferInstance) :
    ∀ bad : List String, (∀ p ∈ bad, writable p = false) →
      acceptRecvRequest writable (bad.map some ++ rest) w =
        ((acceptRecvRequest writable rest w).1,
          bad.map (fun _ => Event.warningNotWritable) ++
            (acceptRecvRequest writable rest w).2) := by
  intro bad
  induction bad with
  | nil => intro _; simp
  | cons p ps ih =>
    intro hbad
    have hp : writable p = false := hbad p (List.mem_cons_self p ps)
    have ih' := ih fun q hq => hbad q (List.mem_cons_of_mem p hq)
    simp [acceptRecvRequest, hp, ih']

/-- C5: while the chosen destination fails the writability probe the user is
re-prompted (one warning popup per attempt) with no field changed; a
cancelled dialog aborts the accept with no field changed; once a writable
path is chosen, `savePath` is set, acceptance is requested from Core with
that path, the PENDING record transitions to PROCESSING exactly once, and
the change signal is emitted. -/
theorem c5_accept_loop (w : FileTransferInstance) (writable : String → Bool)
    (bad : List String) (hbad : ∀ p ∈ bad, writable p = false)
    (good : String) (hgood : writable good = true)
    (hpend : w.state = tsPending) :
    acceptRecvRequest writable (bad.map some ++ [none]) w =
      (w, bad.map (fun _ => Event.warningNotWritable)) ∧
    acceptRecvRequest writable (bad.map some ++ [some good]) w =
      ({ w with savePath := good, state := tsProcessing },
        bad.map (fun _ => Event.warningNotWritable) ++
          [Event.coreAcceptFileRecvRequest w.friendId w.fileNum good,
            Event.stateUpdated]) ∧
    (w.state = tsPending ∧
      (acceptRecvRequest writable (bad.map some ++ [some good]) w).1.state =
        tsProcessing) := by
  have h1 := acceptRecvRequest_badPrefix writable [none] w bad hbad
  have h2 := acceptRecvRequest_badPrefix writable [some good] w bad hbad
  refine ⟨?_, ?_, hpend, ?_⟩
  · rw [h1]; simp [acceptRecvRequest]
  · rw [h2]; simp [acceptRecvRequest, hgood]
  · rw [h2]; simp [acceptRecvRequest, hgood]

/-- C5 witness: one unwritable attempt, then a writable one, on the concrete
PENDING record. -/
theorem c5_accept_loop_witness :
    acceptRecvRequest (fun p => p == "/ok") [some "/bad", some "/ok"] wEx =
      ({ wEx with savePath := "/ok", state := tsProcessing },
        [Event.warningNotWritable, Event.coreAcceptFileRecvRequest 2 1 "/ok",
          Event.stateUpdated]) := by
  have h := (c5_accept_loop wEx (fun p => p == "/ok") ["/bad"] (by decide)
    "/ok" (by decide) rfl).2.1
  simpa [wEx] using h

/-- C7 counterexample: at size 1024^5 the unit is capped at TiB and the
scaled value is 1024, outside the claimed [1, 1024) window — no unit in the
table satisfies the claimed rule there; the rendering is "1024.00TiB". -/
theorem c7_counterexample :
    sizeExp (1024 ^ 5) = 4 ∧
    ¬ ((1024 : ℕ) ^ 5 / 1024 ^ sizeExp (1024 ^ 5) < 1024) ∧
    getHumanReadableSize (1024 ^ 5) = "1024.00TiB" := by
  have hs : sizeExp (1024 ^ 5) = 4 := by
    unfold sizeExp
    rw [if_neg (by norm_num), Nat.log_pow (by norm_num)]
    exact min_eq_right (by norm_num)
  refine ⟨hs, ?_, ?_⟩
  · rw [hs]; norm_num
  · rw [getHumanReadableSize_eq_of _ 4 hs]
    decide

/-- C7 (amended): for 1 ≤ size < 1024^5 the formatter picks the unique unit
among B, kiB, MiB, GiB, TiB whose scaled value lies in [1, 1024) (the
exponent `e ≤ 4` with `1024^e ≤ size < 1024^(e+1)`), rendering two decimal
digits plus the suffix; size 0 renders "0.00B", and at sizes ≥ 1024^5 the
unit is capped at TiB with a scaled value of 1024 or more.  The four spec
examples hold. -/
theorem c7_size_format :
    (∀ size : Nat, 1 ≤ size → size < 1024 ^ 5 →
      1024 ^ sizeExp size ≤ size ∧ size < 1024 ^ (sizeExp size + 1) ∧
        sizeExp size ≤ 4) ∧
    getHumanReadableSize 0 = "0.00B" ∧
    getHumanReadableSize 1024 = "1.00kiB" ∧
    getHumanReadableSize 1536 = "1.50kiB" ∧
    getHumanReadableSize 1048576 = "1.00MiB" := by
  refine ⟨?_, by decide, ?_, ?_, ?_⟩
  · intro size h1 h2
    have h0 : size ≠ 0 := by omega
    have hlog : Nat.log 1024 size < 5 := Nat.log_lt_of_lt_pow h0 h2
    have hse : sizeExp size = Nat.log 1024 size := by
      unfold sizeExp
      rw [if_neg h0]
      exact min_eq_left (by omega)
    exact ⟨by rw [hse]; exact Nat.pow_log_le_self 1024 h0,
      by rw [hse]; exact Nat.lt_pow_succ_log_self (by norm_num) size,
      by rw [hse]; omega⟩
  · rw [getHumanReadableSize_eq_of 1024 1
      (sizeExp_eq_of 1024 1 (by norm_num) (by norm_num) (by norm_num))]
    decide
  · rw [getHumanReadableSize_eq_of 1536 1
      (sizeExp_eq_of 1536 1 (by norm_num) (by norm_num) (by norm_num))]
    decide
  · rw [getHumanReadableSize_eq_of 1048576 2
      (sizeExp_eq_of 1048576 2 (by norm_num) (by norm_num) (by norm_num))]
    decide

/-- C7 witness: the unit-selection window at size 1536. -/
theorem c7_size_format_witness :
    1024 ^ sizeExp 1536 ≤ 1536 ∧ 1536 < 1024 ^ (sizeExp 1536 + 1) ∧
      sizeExp 1536 ≤ 4 :=
  c7_size_format.1 1536 (by norm_num) (by norm_num)
